import Mathlib

/-!
Shallow embedding of the GensynRPA faucet-automation repository
(`src/utils.py`, `src/faucet_automation.py`, `src/sheets_manager.py`,
`main.py`) and proofs about the claims of its specification.

Conventions of the embedding:
* Python `datetime` values are modelled by the `DateTime` record of calendar
  fields at second precision (`datetime.now()` microseconds are dropped; all
  claims are stated at minute-level formatting, where microseconds are
  invisible except through sub-second borrows that the spec does not discuss).
* Python exceptions are explicit values (`Exc`, `PyExc`); fallible paths
  return `Option`/`Except`.
* The current wall-clock time (`datetime.now()`) and the local UTC offset
  (`datetime.now().astimezone().utcoffset()`) are explicit parameters.
* String scanning (`re.search`, `str.strip`, `str.lower`, `str.isdigit`) is
  modelled over ASCII; the Python originals additionally handle non-ASCII
  Unicode whitespace/digits, which none of the claims exercise.
-/

/-- A Python `datetime.datetime` value: calendar fields at second precision. -/
structure DateTime where
  year : Nat
  month : Nat
  day : Nat
  hour : Nat
  minute : Nat
  second : Nat
deriving DecidableEq, Repr

/-- Leap-year test, as used by Python's `calendar`/`datetime` internals. -/
def isLeap (y : Nat) : Bool :=
  (y % 4 == 0 && y % 100 != 0) || y % 400 == 0

/-- Number of days in a month, as validated by the `datetime` constructor. -/
def daysInMonth (y m : Nat) : Nat :=
  if m = 2 then (if isLeap y then 29 else 28)
  else if m = 4 ∨ m = 6 ∨ m = 9 ∨ m = 11 then 30
  else 31

/-- The field ranges enforced by Python's `datetime` constructor
(`MINYEAR = 1`, `MAXYEAR = 9999`), together with second precision. -/
def ValidDT (t : DateTime) : Prop :=
  1 ≤ t.year ∧ t.year ≤ 9999 ∧ 1 ≤ t.month ∧ t.month ≤ 12 ∧
  1 ≤ t.day ∧ t.day ≤ daysInMonth t.year t.month ∧
  t.hour ≤ 23 ∧ t.minute ≤ 59 ∧ t.second ≤ 59

instance (t : DateTime) : Decidable (ValidDT t) := by
  unfold ValidDT; infer_instance

/-- The ASCII digit character for `n % 10`. -/
def digit (n : Nat) : Char := Char.ofNat (48 + n % 10)

/-- Numeric value of an ASCII digit character. -/
def dval (c : Char) : Nat := c.toNat - 48

/-- `strftime` two-digit zero-padded field (`%d`, `%m`, `%H`, `%M`);
the argument is below 100 for every `datetime` field so two digits suffice. -/
def pad2chars (n : Nat) : List Char := [digit (n / 10), digit n]

/-- Four-digit decimal rendering of a year that has four digits (the
`%Y` output for years 1000–9999). -/
def pad4chars (n : Nat) : List Char :=
  [digit (n / 1000), digit (n / 100), digit (n / 10), digit n]

/-- `strftime` `%Y` as CPython/glibc emits it: the year in unpadded
decimal (year 5 renders as `5`, not `0005`).  `datetime` years are at
most 9999, so four width cases cover every reachable year. -/
def yearChars (y : Nat) : List Char :=
  if y < 10 then [digit y]
  else if y < 100 then [digit (y / 10), digit y]
  else if y < 1000 then [digit (y / 100), digit (y / 10), digit y]
  else pad4chars y

/-- The character list produced by `dt.strftime("%d.%m.%Y %H:%M")`. -/
def formatChars (t : DateTime) : List Char :=
  pad2chars t.day ++ '.' :: pad2chars t.month ++ '.' :: yearChars t.year ++
    ' ' :: pad2chars t.hour ++ ':' :: pad2chars t.minute

/-- `src/utils.py` `format_date`: `dt.strftime("%d.%m.%Y %H:%M")`. -/
def format_date (t : DateTime) : String := String.mk (formatChars t)

/-- Python `str.strip()` on a character list: drop whitespace on both ends. -/
def pyStrip (l : List Char) : List Char :=
  ((l.dropWhile Char.isWhitespace).reverse.dropWhile Char.isWhitespace).reverse

/-- Python `str.strip()` on strings. -/
def pyStripStr (s : String) : String := String.mk (pyStrip s.toList)

/-- CPython `_strptime` literal directive: match one exact character. -/
def readLit (c : Char) : List Char → Option (List Char)
  | x :: xs => if x = c then some xs else none
  | [] => none

/-- CPython `_strptime` numeric directive compiled to a regex of the shape
`two-digit alternatives | single digit` (`%d`, `%m`, `%H`, `%M`).
`twoOK`/`oneOK` encode which two-digit/one-digit values the alternation
accepts.  In the format `"%d.%m.%Y %H:%M"` every such field is followed by a
non-digit literal or the end of the string, so this backtracking-free reading
agrees with the regex engine. -/
def read2or1 (twoOK oneOK : Nat → Bool) : List Char → Option (Nat × List Char)
  | c1 :: c2 :: rest =>
    if c1.isDigit && c2.isDigit && twoOK (10 * dval c1 + dval c2) then
      some (10 * dval c1 + dval c2, rest)
    else if c1.isDigit && oneOK (dval c1) then
      some (dval c1, c2 :: rest)
    else none
  | [c1] => if c1.isDigit && oneOK (dval c1) then some (dval c1, []) else none
  | [] => none

/-- CPython `_strptime` `%Y` directive: exactly four digits. -/
def read4 : List Char → Option (Nat × List Char)
  | c1 :: c2 :: c3 :: c4 :: rest =>
    if c1.isDigit && c2.isDigit && c3.isDigit && c4.isDigit then
      some (1000 * dval c1 + 100 * dval c2 + 10 * dval c3 + dval c4, rest)
    else none
  | _ => none

/-- `datetime.strptime(s, "%d.%m.%Y %H:%M")` on a character list:
CPython's `_strptime` regexes are `%d ↦ (3[01]|[12]\d|0[1-9]|[1-9])`,
`%m ↦ (1[0-2]|0[1-9]|[1-9])`, `%Y ↦ \d\d\d\d`, `%H ↦ (2[0-3]|[0-1]\d|\d)`,
`%M ↦ ([0-5]\d|\d)`, the whole input must be consumed, and the
`datetime(year, month, day, hour, minute)` constructor then validates
`1 ≤ year` and `day ≤ daysInMonth` (a violation raises `ValueError`). -/
def strptimeDMYHM (l : List Char) : Option DateTime :=
  match read2or1 (fun v => 1 ≤ v && v ≤ 31) (fun v => 1 ≤ v && v ≤ 9) l with
  | none => none
  | some (d, l) =>
  match readLit '.' l with
  | none => none
  | some l =>
  match read2or1 (fun v => 1 ≤ v && v ≤ 12) (fun v => 1 ≤ v && v ≤ 9) l with
  | none => none
  | some (m, l) =>
  match readLit '.' l with
  | none => none
  | some l =>
  match read4 l with
  | none => none
  | some (y, l) =>
  match readLit ' ' l with
  | none => none
  | some l =>
  match read2or1 (fun v => v ≤ 23) (fun v => v ≤ 9) l with
  | none => none
  | some (h, l) =>
  match readLit ':' l with
  | none => none
  | some l =>
  match read2or1 (fun v => v ≤ 59) (fun v => v ≤ 9) l with
  | none => none
  | some (mi, l) =>
  match l with
  | _ :: _ => none
  | [] =>
    if 1 ≤ y ∧ 1 ≤ d ∧ d ≤ daysInMonth y m then
      some ⟨y, m, d, h, mi, 0⟩
    else none

/-- `src/utils.py` `parse_date`: empty/whitespace-only input yields `None`;
otherwise `datetime.strptime(date_str.strip(), "%d.%m.%Y %H:%M")`, with a
`ValueError` turned into `None`. -/
def parse_date (date_str : String) : Option DateTime :=
  if pyStrip date_str.toList = [] then none
  else strptimeDMYHM (pyStrip date_str.toList)

-- Civil-calendar arithmetic backing Python's `datetime` ± `timedelta` and
-- `datetime` comparison (both are exact timeline operations).

/-- Days from civil date to the 1970-01-01 epoch (Howard Hinnant's
`days_from_civil`). -/
def daysFromCivil (y : Int) (m d : Nat) : Int :=
  let y' : Int := if m ≤ 2 then y - 1 else y
  let era : Int := Int.fdiv y' 400
  let yoe : Int := y' - era * 400
  let mp : Nat := if 2 < m then m - 3 else m + 9
  let doy : Int := (153 * mp + 2) / 5 + d - 1
  let doe : Int := yoe * 365 + Int.fdiv yoe 4 - Int.fdiv yoe 100 + doy
  era * 146097 + doe - 719468

/-- Seconds from a `DateTime` to the epoch: the timeline embedding under
which Python's `datetime` ordering and `timedelta` arithmetic are exact. -/
def toSecs (t : DateTime) : Int :=
  86400 * daysFromCivil t.year t.month t.day +
    3600 * t.hour + 60 * t.minute + t.second

/-- Civil date from an epoch day count (Howard Hinnant's `civil_from_days`);
total, but only consulted on day counts inside the `datetime` year range
1..9999, where the intermediate quantities are non-negative. -/
def civilFromDays (days : Int) : Nat × Nat × Nat :=
  let z : Nat := (days + 719468).toNat
  let era : Nat := z / 146097
  let doe : Nat := z % 146097
  let yoe : Nat := (doe - doe / 1460 + doe / 36524 - doe / 146096) / 365
  let y : Nat := yoe + era * 400
  let doy : Nat := doe - (365 * yoe + yoe / 4 - yoe / 100)
  let mp : Nat := (5 * doy + 2) / 153
  let d : Nat := doy - (153 * mp + 2) / 5 + 1
  let m : Nat := if mp < 10 then mp + 3 else mp - 9
  (if m ≤ 2 then y + 1 else y, m, d)

/-- `DateTime` from epoch seconds (inverse of `toSecs` on the valid range). -/
def ofSecs (z : Int) : DateTime :=
  let days : Int := Int.fdiv z 86400
  let rem : Nat := (z - 86400 * days).toNat
  let c := civilFromDays days
  ⟨c.1, c.2.1, c.2.2, rem / 3600, rem % 3600 / 60, rem % 60⟩

/-- Epoch seconds of `datetime.min` (0001-01-01 00:00:00). -/
def minSecs : Int := toSecs ⟨1, 1, 1, 0, 0, 0⟩

/-- Epoch seconds of `datetime.max` truncated to seconds
(9999-12-31 23:59:59). -/
def maxSecs : Int := toSecs ⟨9999, 12, 31, 23, 59, 59⟩

/-- Whether a span of `s` seconds is representable as a Python `timedelta`
(`-999999999 days ≤ td ≤ 999999999 days, 23:59:59.999999`); outside this
range the `timedelta` constructor/arithmetic raises `OverflowError`. -/
def tdOK (s : Int) : Bool :=
  -999999999 * 86400 ≤ s && s ≤ 999999999 * 86400 + 86399

/-- A Python exception at the orchestrator level: `KeyboardInterrupt`
(a `BaseException`, not caught by `except Exception`) or any other
exception with its message. -/
inductive PyExc
  | err (msg : String)
  | kb
deriving DecidableEq, Repr

/-- `src/utils.py` `is_cooldown_passed`: `True` when the stored date string
is empty/whitespace or unparseable; otherwise it evaluates
`now >= last_work + timedelta(hours=cooldown_hours)`.
That addition is NOT guarded by any try/except: when
`timedelta(hours=cooldown_hours)` overflows, or `last_work + td` falls
outside `datetime.min..datetime.max`, CPython raises an uncaught
`OverflowError` (messages `days=...; must have magnitude <= 999999999`
resp. `date value out of range`), modelled here as a generic `.error`.
`now` (the value of `datetime.now()`) is an explicit parameter; the
`datetime` comparison and `timedelta` addition are exact timeline
operations, expressed through `toSecs`. -/
def is_cooldown_passed (date_str : String) (cooldown_hours : Int)
    (now : DateTime) : Except PyExc Bool :=
  if pyStrip date_str.toList = [] then .ok true
  else
    match parse_date date_str with
    | none => .ok true
    | some last_work =>
      if tdOK (cooldown_hours * 3600) &&
          minSecs ≤ toSecs last_work + cooldown_hours * 3600 &&
          toSecs last_work + cooldown_hours * 3600 ≤ maxSecs then
        .ok (decide (toSecs last_work + cooldown_hours * 3600 ≤ toSecs now))
      else .error (.err "OverflowError")

/-- The cooldown arithmetic for this string and window stays inside
Python's `timedelta`/`datetime` ranges (so `is_cooldown_passed` cannot
raise); vacuous when the string does not parse. -/
def CooldownArithOK (date_str : String) (cooldown_hours : Int) : Prop :=
  match parse_date date_str with
  | none => True
  | some last_work =>
    tdOK (cooldown_hours * 3600) = true ∧
    minSecs ≤ toSecs last_work + cooldown_hours * 3600 ∧
    toSecs last_work + cooldown_hours * 3600 ≤ maxSecs

instance (s : String) (H : Int) : Decidable (CooldownArithOK s H) :=
  match hp : parse_date s with
  | none => .isTrue (by unfold CooldownArithOK; rw [hp]; trivial)
  | some lw =>
    decidable_of_iff
      (tdOK (H * 3600) = true ∧ minSecs ≤ toSecs lw + H * 3600 ∧
        toSecs lw + H * 3600 ≤ maxSecs)
      (by unfold CooldownArithOK; rw [hp])

/-- `src/utils.py` `get_yes_no_status`: an `OverflowError` raised by
`is_cooldown_passed` propagates. -/
def get_yes_no_status (date_str : String) (cooldown_hours : Int)
    (now : DateTime) : Except PyExc String :=
  match is_cooldown_passed date_str cooldown_hours now with
  | .error e => .error e
  | .ok b => .ok (if b then "yes" else "no")

-- `src/faucet_automation.py`: the claim state machine.

/-- Digit-run reader backing the `re.search(r'(\d+)X', text)` model:
consume a maximal run of digits, accumulating its value (Python `int`). -/
def readRun (acc : Nat) : List Char → Nat × List Char
  | [] => (acc, [])
  | c :: cs => if c.isDigit then readRun (10 * acc + dval c) cs else (acc, c :: cs)

/-- `re.search(r'(\d+)u', text)` worker: value of the leftmost maximal
digit run immediately followed by the unit character `u`.  Positions
inside a digit run reach the same run end, so skipping past a failed run
is exactly the regex engine's left-to-right search.  The fuel argument is
the list length; the run's remainder is never longer than the tail, so
the fuel never runs out before the list does. -/
def findNumAux (u : Char) : Nat → List Char → Option Nat
  | 0, _ => none
  | _, [] => none
  | fuel + 1, c :: cs =>
    if c.isDigit then
      match readRun (dval c) cs with
      | (v, r :: rs) => if r = u then some v else findNumAux u fuel (r :: rs)
      | (_, []) => none
    else findNumAux u fuel cs

/-- `re.search(r'(\d+)u', text)`: leftmost digit-run value before `u`. -/
def findNum (u : Char) (l : List Char) : Option Nat :=
  findNumAux u l.length l

/-- Python `sub in s` (substring containment) on character lists. -/
def hasInfix (s sub : List Char) : Bool := decide (sub <:+: s)

/-- Python `str.lower()` (ASCII; the matched needles are ASCII). -/
def pyLower (s : String) : String := String.mk (s.toList.map Char.toLower)

/-- The rate-limit test of `claim_faucet`:
`"rate limit" in error_msg.lower() or "24 hour" in error_msg.lower()`. -/
def isRateLimited (error_msg : String) : Bool :=
  hasInfix (pyLower error_msg).toList "rate limit".toList ||
    hasInfix (pyLower error_msg).toList "24 hour".toList

/-- The CAPTCHA test of `claim_faucet`: `"captcha" in error_msg.lower()`. -/
def isCaptcha (error_msg : String) : Bool :=
  hasInfix (pyLower error_msg).toList "captcha".toList

/-- One window of `re.search(r'(\d{4}-\d{2}-\d{2}T\d{2}:\d{2}:\d{2})', msg)`:
does the list start with an ISO-8601 `YYYY-MM-DDTHH:MM:SS` shape?  If so,
return its numeric fields. -/
def matchIsoAt : List Char → Option (Nat × Nat × Nat × Nat × Nat × Nat)
  | y1 :: y2 :: y3 :: y4 :: '-' :: m1 :: m2 :: '-' :: d1 :: d2 :: 'T' ::
      h1 :: h2 :: ':' :: i1 :: i2 :: ':' :: s1 :: s2 :: _ =>
    if y1.isDigit && y2.isDigit && y3.isDigit && y4.isDigit &&
        m1.isDigit && m2.isDigit && d1.isDigit && d2.isDigit &&
        h1.isDigit && h2.isDigit && i1.isDigit && i2.isDigit &&
        s1.isDigit && s2.isDigit then
      some (1000 * dval y1 + 100 * dval y2 + 10 * dval y3 + dval y4,
        10 * dval m1 + dval m2, 10 * dval d1 + dval d2,
        10 * dval h1 + dval h2, 10 * dval i1 + dval i2,
        10 * dval s1 + dval s2)
    else none
  | _ => none

/-- `re.search` for the fixed-shape ISO pattern: leftmost window match. -/
def findIso : List Char → Option (Nat × Nat × Nat × Nat × Nat × Nat)
  | [] => none
  | c :: cs =>
    match matchIsoAt (c :: cs) with
    | some r => some r
    | none => findIso cs

/-- `FaucetAutomation._parse_rate_limit_date`: search the message for an
ISO `YYYY-MM-DDTHH:MM:SS` timestamp, parse it with
`datetime.fromisoformat` (which validates the calendar fields, raising
`ValueError` otherwise — caught, yielding `None`), add the local UTC offset,
subtract 24 hours, and format.  An out-of-range result raises
`OverflowError`, also caught to `None`.  `localOffset` is the value of
`datetime.now().astimezone().utcoffset()` in seconds. -/
def parse_rate_limit_date (localOffset : Int) (error_msg : String) :
    Option String :=
  match findIso error_msg.toList with
  | none => none
  | some (y, mo, d, h, mi, s) =>
    if 1 ≤ y ∧ 1 ≤ mo ∧ mo ≤ 12 ∧ 1 ≤ d ∧ d ≤ daysInMonth y mo ∧
        h ≤ 23 ∧ mi ≤ 59 ∧ s ≤ 59 then
      let retry_after_utc : Int := toSecs ⟨y, mo, d, h, mi, s⟩
      let last_work_time : Int := retry_after_utc + localOffset - 86400
      if tdOK localOffset && minSecs ≤ retry_after_utc + localOffset &&
          retry_after_utc + localOffset ≤ maxSecs &&
          minSecs ≤ last_work_time && last_work_time ≤ maxSecs then
        some (format_date (ofSecs last_work_time))
      else none
    else none

/-- A Python exception escaping a page operation: Playwright's
`TimeoutError` or any other `Exception`, with its `str(e)` rendering. -/
inductive Exc
  | timeout (msg : String)
  | other (msg : String)
deriving DecidableEq, Repr

/-- The `last_error` update performed by `claim_faucet`'s handlers:
`except PlaywrightTimeoutError as e: last_error = f"Timeout: {str(e)}"`,
`except Exception as e: last_error = str(e)`. -/
def excMsg : Exc → String
  | .timeout m => "Timeout: " ++ m
  | .other m => m

/-- The page's observable behaviour during one iteration of the
`claim_faucet` loop.  `Option Exc` fields are `none` when the page
operation completes normally.  An element query is `Option (Option String)`:
`none` means `locator.count() == 0`; `some tc` means the element is present
with `text_content()` result `tc` (`Option String`, `None`/empty being
falsy in Python). -/
structure AttemptEnv where
  /-- The value of `datetime.now()` during this attempt. -/
  now : DateTime
  /-- The local UTC offset in seconds during this attempt. -/
  localOffset : Int
  /-- `page.goto(...)` outcome. -/
  gotoErr : Option Exc
  /-- `page.wait_for_load_state("networkidle", ...)` outcome;
  `_wait_for_page_load` swallows the timeout variant. -/
  loadErr : Option Exc
  /-- `wallet_input.wait_for(state="visible", timeout=15000)` outcome. -/
  inputWaitErr : Option Exc
  /-- The `"Come back in"` cooldown button: present/absent and its text.
  An exception inside `_check_for_cooldown` is caught there and yields the
  same `(False, None)` result as an absent button. -/
  cooldownBtn : Option (Option String)
  /-- `_clear_and_type` (click/fill/type) outcome. -/
  typeErr : Option Exc
  /-- The `p.text-red-600` error region right after typing the address.
  An exception inside `_check_for_error` is caught there and yields the
  same `(False, "")` result as an absent element. -/
  errAfterType : Option (Option String)
  /-- `send_button.wait_for(state="visible", timeout=10000)` outcome. -/
  sendWaitErr : Option Exc
  /-- `send_button.click()` outcome. -/
  clickErr : Option Exc
  /-- Success indicators present right after the post-click settle wait.
  An exception inside `_check_for_success` is caught there, yielding
  `False` like an absent indicator. -/
  success1 : Bool
  /-- The error region consulted after the success check. -/
  errAfterClick : Option (Option String)
  /-- `page.reload()` outcome on the CAPTCHA path. -/
  reloadErr : Option Exc
  /-- Success indicators present after the extra 5s grace wait. -/
  success2 : Bool
deriving Repr

/-- `FaucetAutomation._check_for_error`: `(False, "")` when the error
element is absent (or the check itself raised, caught inside); otherwise
`(True, error_text.strip() if error_text else "Unknown error")`. -/
def check_for_error (reg : Option (Option String)) : Bool × String :=
  match reg with
  | none => (false, "")
  | some et =>
    (true, match et with
      | none => "Unknown error"
      | some t => if t = "" then "Unknown error" else pyStripStr t)

/-- `FaucetAutomation._check_for_cooldown`: if the `"Come back in"` button
is present and has truthy text, extract `(\d+)h`, `(\d+)m`, `(\d+)s`
(each absent unit defaulting to 0), set
`remaining = timedelta(hours=h, minutes=m, seconds=s)`,
`time_since_last_work = timedelta(hours=24) - remaining`, and return
`format_date(datetime.now() - time_since_last_work)`.  A `timedelta`
overflow or an out-of-range datetime raises inside the probe's `try`,
caught to `(False, None)` exactly like an absent button. -/
def check_for_cooldown (env : AttemptEnv) : Bool × Option String :=
  match env.cooldownBtn with
  | none => (false, none)
  | some none => (true, none)
  | some (some txt) =>
    if txt = "" then (true, none)
    else
      let hours : Int := ((findNum 'h' txt.toList).getD 0 : Nat)
      let minutes : Int := ((findNum 'm' txt.toList).getD 0 : Nat)
      let seconds : Int := ((findNum 's' txt.toList).getD 0 : Nat)
      let remaining : Int := 3600 * hours + 60 * minutes + seconds
      let time_since_last_work : Int := 86400 - remaining
      let last_work_time : Int := toSecs env.now - time_since_last_work
      if tdOK remaining && tdOK time_since_last_work &&
          minSecs ≤ last_work_time && last_work_time ≤ maxSecs then
        (true, some (format_date (ofSecs last_work_time)))
      else (false, none)

/-- One iteration of the `claim_faucet` retry loop (the body of the
`while attempt < self.retry_count` loop): either an early `return`
(`Sum.inl` with the returned `(success, message)` pair) or a fall-through
to the next iteration (`Sum.inr` with the updated `last_error`). -/
def attemptBody (env : AttemptEnv) (last_error : String) :
    Sum (Bool × String) String :=
  -- page.goto
  match env.gotoErr with
  | some e => .inr (excMsg e)
  | none =>
  -- _wait_for_page_load: PlaywrightTimeoutError caught and logged inside
  match env.loadErr with
  | some (.other m) => .inr m
  | _ =>
  -- wallet_input.wait_for(state="visible", timeout=15000)
  match env.inputWaitErr with
  | some e => .inr (excMsg e)
  | none =>
  -- cooldown probe, before typing
  match check_for_cooldown env with
  | (true, some calculated_date) => .inl (false, "COOLDOWN:" ++ calculated_date)
  | (true, none) => .inl (false, "COOLDOWN:unknown")
  | (false, _) =>
  -- _clear_and_type
  match env.typeErr with
  | some e => .inr (excMsg e)
  | none =>
  -- error check after typing the address
  match check_for_error env.errAfterType with
  | (true, error_msg) =>
    if isRateLimited error_msg then
      match parse_rate_limit_date env.localOffset error_msg with
      | some calculated_date => .inl (false, "COOLDOWN:" ++ calculated_date)
      | none => .inl (false, "COOLDOWN:unknown")
    else .inr error_msg  -- last_error = error_msg; continue
  | (false, _) =>
  -- send_button.wait_for(state="visible", timeout=10000)
  match env.sendWaitErr with
  | some e => .inr (excMsg e)
  | none =>
  -- send_button.click()
  match env.clickErr with
  | some e => .inr (excMsg e)
  | none =>
  if env.success1 then .inl (true, "OK")
  else
  -- error check after clicking send
  match check_for_error env.errAfterClick with
  | (true, error_msg) =>
    if isRateLimited error_msg then
      match parse_rate_limit_date env.localOffset error_msg with
      | some calculated_date => .inl (false, "COOLDOWN:" ++ calculated_date)
      | none => .inl (false, "COOLDOWN:unknown")
    else if isCaptcha error_msg then
      match env.reloadErr with
      | some e => .inr (excMsg e)  -- reload raised; handler overwrites last_error
      | none => .inr error_msg     -- reload ok; retry with last_error = error_msg
    else .inr error_msg            -- other errors: retry
  | (false, _) =>
  -- no success and no error: unknown state, one more grace check
  if env.success2 then .inl (true, "OK")
  else .inr "Unknown state after clicking send"

/-- The `while attempt < self.retry_count` loop of `claim_faucet`,
recursing on the number of iterations left; when the budget is exhausted:
`return False, last_error if last_error else "Max retries exceeded"`. -/
def claim_loop (envs : Nat → AttemptEnv) : Nat → Nat → String → Bool × String
  | _, 0, last_error =>
    (false, if last_error = "" then "Max retries exceeded" else last_error)
  | done, r + 1, last_error =>
    match attemptBody (envs done) last_error with
    | .inl result => result
    | .inr last_error' => claim_loop envs (done + 1) r last_error'

/-- The automation-relevant configuration of `FaucetAutomation`:
`automation_config.get("retry_count", 3)`. -/
structure FaucetConfig where
  retry_count : Option Nat
deriving Repr

/-- The resolved retry budget (`self.retry_count`, default 3). -/
def resolvedRetry (cfg : FaucetConfig) : Nat := cfg.retry_count.getD 3

/-- `FaucetAutomation.claim_faucet`: run the bounded retry loop with
`attempt = 0` and `last_error = ""`, the page presenting behaviour
`envs i` during the (i+1)-st iteration. -/
def claim_faucet (cfg : FaucetConfig) (envs : Nat → AttemptEnv) :
    Bool × String :=
  claim_loop envs 0 (resolvedRetry cfg) ""

/-- The number of loop iterations `claim_faucet` executes (instrumentation
of the same recursion; not part of the source, used to state the
attempt bound). -/
def claimAttempts (envs : Nat → AttemptEnv) : Nat → Nat → String → Nat
  | _, 0, _ => 0
  | done, r + 1, last_error =>
    match attemptBody (envs done) last_error with
    | .inl _ => 1
    | .inr last_error' => 1 + claimAttempts envs (done + 1) r last_error'

/-- Iterations executed by `claim_faucet cfg envs`. -/
def claimAttemptsUsed (cfg : FaucetConfig) (envs : Nat → AttemptEnv) : Nat :=
  claimAttempts envs 0 (resolvedRetry cfg) ""

-- `src/sheets_manager.py` and `main.py`: persistence and orchestration.

/-- The three result cells of one spreadsheet row that the manager writes
(`date_work`, `kol-vo zapros`, `status`). -/
structure Row where
  date_work : String
  kol_vo : Nat
  status : String
deriving DecidableEq, Repr

/-- `SheetsManager.update_profile_result`: one batched write setting
`date_work := format_date(datetime.now())`,
`kol_vo := current_count + 1 if success else current_count`, and
`status := status_message`. -/
def update_profile_result (now : DateTime) (success : Bool)
    (status_message : String) (current_count : Nat) (_row : Row) : Row :=
  { date_work := format_date now
    kol_vo := if success then current_count + 1 else current_count
    status := status_message }

/-- `SheetsManager.update_profile_with_cooldown`: one batched write setting
`date_work` to the calculated date (empty when `None`) and
`status := "Cooldown"`, leaving the count cell untouched. -/
def update_profile_with_cooldown (calculated_date : Option String)
    (row : Row) : Row :=
  { date_work := calculated_date.getD ""
    kol_vo := row.kol_vo
    status := "Cooldown" }

/-- The persistence step of `main.py` `process_profile` (lines 89–97): the
`(success, message)` pair returned by `claim_faucet` is always forwarded to
`update_profile_result`; no branch ever calls
`update_profile_with_cooldown`. -/
def persist_after_claim (now : DateTime) (result : Bool × String)
    (current_count : Nat) (row : Row) : Row :=
  update_profile_result now result.1 result.2 current_count row

/-- Python `str.isdigit()` (ASCII digits; nonempty and all digits). -/
def pyIsDigit (s : String) : Bool :=
  s.toList ≠ [] && s.toList.all Char.isDigit

/-- Python `int(s)` for a digit string (under an `isdigit` guard). -/
def pyToNat (s : String) : Nat :=
  (pyStrip s.toList).foldl (fun acc c => 10 * acc + dval c) 0

/-- The column layout of `SheetsManager` (1-indexed, defaults
`profile_number = 1`, `address = 2`, `date_work = 3`, `kol_vo = 5`,
`status = 6`). -/
structure Cols where
  col_profile : Nat := 1
  col_address : Nat := 2
  col_date_work : Nat := 3
  col_kol_vo : Nat := 5
  col_status : Nat := 6
deriving Repr

/-- `row[col - 1] if len(row) >= col else ""` (columns are 1-indexed and
at least 1, so this is a defaulted lookup). -/
def cellAt (r : List String) (col : Nat) : String := r.getD (col - 1) ""

/-- One parsed profile record, as built by
`SheetsManager.get_all_profiles`. -/
structure ProfileRec where
  row : Nat
  profile_number : String
  address : String
  date_work : String
  kol_vo_zapros : Nat
  status : String
deriving DecidableEq, Repr

/-- The header labels recognised by `get_all_profiles`. -/
def headerLabels : List String :=
  ["profile", "profile number", "serial", "number", "#"]

/-- The header test applied to row 1 only:
`not first_cell.isdigit() and first_cell.lower() in [...]`. -/
def isHeaderRow (cols : Cols) (r : List String) : Bool :=
  let first_cell := cellAt r cols.col_profile
  !pyIsDigit first_cell && headerLabels.contains (pyLower first_cell)

/-- One row of `get_all_profiles`' loop body: `none` when the row is
skipped (empty identifying cell). -/
def parseRow (cols : Cols) (row_idx : Nat) (r : List String) :
    Option ProfileRec :=
  let profile_number := cellAt r cols.col_profile
  if profile_number = "" then none
  else
    let kol_vo := cellAt r cols.col_kol_vo
    some
      { row := row_idx
        profile_number := pyStripStr profile_number
        address := pyStripStr (cellAt r cols.col_address)
        date_work := pyStripStr (cellAt r cols.col_date_work)
        kol_vo_zapros := if pyIsDigit (pyStripStr kol_vo) then pyToNat kol_vo else 0
        status := pyStripStr (cellAt r cols.col_status) }

/-- The indexed traversal inside `get_all_profiles` (rows enumerated from
`start=1`; the header check fires only at index 1). -/
def profilesFrom (cols : Cols) : Nat → List (List String) → List ProfileRec
  | _, [] => []
  | idx, r :: rest =>
    if idx = 1 && isHeaderRow cols r then profilesFrom cols (idx + 1) rest
    else
      match parseRow cols idx r with
      | none => profilesFrom cols (idx + 1) rest
      | some p => p :: profilesFrom cols (idx + 1) rest

/-- `SheetsManager.get_all_profiles` over the worksheet's cell matrix. -/
def get_all_profiles (cols : Cols) (all_values : List (List String)) :
    List ProfileRec :=
  profilesFrom cols 1 all_values

/-- The per-profile loop of `get_profiles_to_process`: keep, in stored
order, the profiles whose `date_work` passes the cooldown test; an
`OverflowError` raised by `is_cooldown_passed` propagates out of the
loop. -/
def filterCooldown (cooldown_hours : Int) (now : DateTime) :
    List ProfileRec → Except PyExc (List ProfileRec)
  | [] => .ok []
  | p :: ps =>
    match is_cooldown_passed p.date_work cooldown_hours now with
    | .error e => .error e
    | .ok true =>
      match filterCooldown cooldown_hours now ps with
      | .error e => .error e
      | .ok rest => .ok (p :: rest)
    | .ok false => filterCooldown cooldown_hours now ps

/-- `SheetsManager.get_profiles_to_process`. -/
def get_profiles_to_process (cols : Cols) (cooldown_hours : Int)
    (now : DateTime) (all_values : List (List String)) :
    Except PyExc (List ProfileRec) :=
  filterCooldown cooldown_hours now (get_all_profiles cols all_values)

/-- The methods defined on `SheetsManager` in `src/sheets_manager.py`. -/
def sheetsManagerMethods : List String :=
  ["get_all_profiles", "get_profiles_to_process", "update_profile_result",
   "update_profile_with_cooldown"]

/-- The pre-loop phase of `main.py` `main` (lines 150–162): it first calls
`sheets.update_yes_no_column()` and only then
`sheets.get_profiles_to_process()`.  Looking up a method that the class
does not define raises `AttributeError`; nothing in `main` catches it. -/
def main_startup (cols : Cols) (cooldown_hours : Int) (now : DateTime)
    (all_values : List (List String)) : Except PyExc (List ProfileRec) :=
  if sheetsManagerMethods.contains "update_yes_no_column" then
    get_profiles_to_process cols cooldown_hours now all_values
  else
    .error (.err "AttributeError: 'SheetsManager' object has no attribute 'update_yes_no_column'")

/-- The external events of `main.py` `process_profile` for one profile:
outcomes of browser acquisition/connection, the claim protocol, the two
possible persistence calls, and the `finally`-block browser stop. -/
structure ProfileEvents where
  /-- `adspower.start_browser` + `connect_over_cdp` + context/page setup:
  `none` when a page handle is obtained. -/
  acquire : Option PyExc
  /-- `faucet.claim_faucet`: its `(success, message)` pair, or an
  exception escaping it. -/
  claim : Except PyExc (Bool × String)
  /-- `sheets.update_profile_result` in the normal path. -/
  persistOK : Option PyExc
  /-- `sheets.update_profile_result` inside the `except` handler. -/
  persistErr : Option PyExc
  /-- `adspower.stop_browser` in the `finally` block (not guarded by its
  own try; `page.close()`/`browser.close()` failures are swallowed). -/
  stopErr : Option PyExc
deriving Repr

/-- The `except Exception` handler of `process_profile`: logs, writes the
error status via `update_profile_result`, and returns `False`.
`KeyboardInterrupt` is a `BaseException`, so it is not caught; an exception
raised by the persistence call inside the handler propagates. -/
def profileHandler (ev : ProfileEvents) (e : PyExc) : Except PyExc Bool :=
  match e with
  | .kb => .error .kb
  | .err m =>
    match ev.persistErr with
    | some e' => .error e'
    | none =>
      let _ := m  -- status written: "Error: " + m[:100]
      .ok false

/-- The `try`/`except` part of `process_profile`. -/
def profileTryBody (ev : ProfileEvents) : Except PyExc Bool :=
  match ev.acquire with
  | some e => profileHandler ev e
  | none =>
  match ev.claim with
  | .error e => profileHandler ev e
  | .ok (success, _message) =>
    match ev.persistOK with
    | some e => profileHandler ev e
    | none => .ok success

/-- `main.py` `process_profile` with its `finally` block: an exception
raised by `stop_browser` in `finally` supersedes the body's outcome. -/
def process_profile (ev : ProfileEvents) : Except PyExc Bool :=
  match ev.stopErr with
  | some e => .error e
  | none => profileTryBody ev

/-- The per-profile loop of `main.py` `main` (lines 170–193): counts
successes and failures; `except Exception` counts a failure and continues;
`except KeyboardInterrupt` breaks out of the loop. -/
def main_loop : List ProfileEvents → Nat × Nat
  | [] => (0, 0)
  | ev :: rest =>
    match process_profile ev with
    | .ok true => ((main_loop rest).1 + 1, (main_loop rest).2)
    | .ok false => ((main_loop rest).1, (main_loop rest).2 + 1)
    | .error (.err _) => ((main_loop rest).1, (main_loop rest).2 + 1)
    | .error .kb => (0, 0)

-- Derived predicates and concrete scenario environments used to state the
-- claims.

/-- The remaining cooldown of a probe text in seconds:
`timedelta(hours, minutes, seconds)` for the three extracted units. -/
def remainingSecs (txt : String) : Int :=
  3600 * ((findNum 'h' txt.toList).getD 0 : Nat) +
  60 * ((findNum 'm' txt.toList).getD 0 : Nat) +
  ((findNum 's' txt.toList).getD 0 : Nat)

/-- The attempt reaches the pre-typing cooldown probe: navigation did not
raise, the page-load wait raised at most a (swallowed) timeout, and the
wallet input became visible. -/
def reachesProbe (env : AttemptEnv) : Prop :=
  env.gotoErr = none ∧ (∀ m, env.loadErr ≠ some (.other m)) ∧
  env.inputWaitErr = none

/-- The probe arithmetic stays inside `timedelta`/`datetime` ranges (no
`OverflowError` inside the probe's `try`). -/
def probeInRange (env : AttemptEnv) (txt : String) : Prop :=
  tdOK (remainingSecs txt) = true ∧
  tdOK (86400 - remainingSecs txt) = true ∧
  minSecs ≤ toSecs env.now - (86400 - remainingSecs txt) ∧
  toSecs env.now - (86400 - remainingSecs txt) ≤ maxSecs

/-- Calendar validity of the fields of an extracted ISO timestamp, as
checked by `datetime.fromisoformat`. -/
def IsoOK (y mo d h mi s : Nat) : Prop :=
  1 ≤ y ∧ 1 ≤ mo ∧ mo ≤ 12 ∧ 1 ≤ d ∧ d ≤ daysInMonth y mo ∧
  h ≤ 23 ∧ mi ≤ 59 ∧ s ≤ 59

/-- The rate-limit arithmetic stays inside `timedelta`/`datetime` ranges. -/
def rlInRange (off : Int) (y mo d h mi s : Nat) : Prop :=
  tdOK off = true ∧
  minSecs ≤ toSecs ⟨y, mo, d, h, mi, s⟩ + off ∧
  toSecs ⟨y, mo, d, h, mi, s⟩ + off ≤ maxSecs ∧
  minSecs ≤ toSecs ⟨y, mo, d, h, mi, s⟩ + off - 86400 ∧
  toSecs ⟨y, mo, d, h, mi, s⟩ + off - 86400 ≤ maxSecs

instance (env : AttemptEnv) (txt : String) :
    Decidable (probeInRange env txt) := by
  unfold probeInRange; infer_instance

instance (y mo d h mi s : Nat) : Decidable (IsoOK y mo d h mi s) := by
  unfold IsoOK; infer_instance

instance (off : Int) (y mo d h mi s : Nat) :
    Decidable (rlInRange off y mo d h mi s) := by
  unfold rlInRange; infer_instance

/-- Did `process_profile` end in an uncaught `KeyboardInterrupt`? -/
def endsInKb (r : Except PyExc Bool) : Bool :=
  match r with
  | .error .kb => true
  | _ => false

/-- Is this `process_profile` outcome a counted success (`.ok true`)? -/
def isOkTrue (r : Except PyExc Bool) : Bool :=
  match r with
  | .ok true => true
  | _ => false

/-- A page trace whose every operation succeeds and that shows no cooldown
control, no error text, and no success indicator (the ambiguous state). -/
def quietEnv : AttemptEnv :=
  { now := ⟨2025, 12, 27, 10, 0, 0⟩
    localOffset := 3 * 3600
    gotoErr := none
    loadErr := none
    inputWaitErr := none
    cooldownBtn := none
    typeErr := none
    errAfterType := none
    sendWaitErr := none
    clickErr := none
    success1 := false
    errAfterClick := none
    reloadErr := none
    success2 := false }

/-- An attempt that succeeds: like `quietEnv` but the success indicator is
present after the click. -/
def okEnv : AttemptEnv := { quietEnv with success1 := true }

/-- An attempt whose post-typing error region holds whitespace-only text:
`_check_for_error` reports the error with a stripped-to-empty message, so
`last_error` stays empty while the attempt is consumed. -/
def blankErrEnv : AttemptEnv := { quietEnv with errAfterType := some (some " ") }

/-- An attempt whose post-typing error region holds page text that itself
starts with the string `COOLDOWN:` without being a rate-limit message. -/
def echoEnv : AttemptEnv :=
  { quietEnv with errAfterType := some (some "COOLDOWN:page says so") }

/-- An attempt showing the cooldown button `Come back in 23h 11m 49s`. -/
def cooldownEnv : AttemptEnv :=
  { quietEnv with cooldownBtn := some (some "Come back in 23h 11m 49s") }

/-- An attempt whose post-typing error is a rate-limit message with an
embedded ISO timestamp. -/
def rlEnv : AttemptEnv :=
  { quietEnv with
    errAfterType := some (some "Rate limit reached. Try again after 2025-12-27T10:16:22.424Z") }

/-- An attempt that types and submits cleanly, sees no success indicator,
and only then finds the rate-limit message in the error region. -/
def rlClickEnv : AttemptEnv :=
  { quietEnv with
    errAfterClick := some (some "Rate limit reached. Try again after 2025-12-27T10:16:22.424Z") }

/-- Per-profile orchestrator events where browser acquisition raises. -/
def acquireFailEv : ProfileEvents :=
  { acquire := some (.err "Connection error to AdsPower")
    claim := .ok (true, "OK")
    persistOK := none
    persistErr := none
    stopErr := none }

/-- Per-profile orchestrator events where everything succeeds. -/
def okEv : ProfileEvents :=
  { acquire := none
    claim := .ok (true, "OK")
    persistOK := none
    persistErr := none
    stopErr := none }

/-- Per-profile orchestrator events where the `finally` browser stop
raises. -/
def stopFailEv : ProfileEvents :=
  { acquire := none
    claim := .ok (false, "Max retries exceeded")
    persistOK := none
    persistErr := none
    stopErr := some (.err "AdsPower API request timed out") }

-- Claim theorems.

/-- C7 (counterexample to the unconditional iff): the source's
`last_work + timedelta(hours=cooldown_hours)` is unguarded, so at
`s = "01.01.0001 00:00"` with `H = -1` the addition underflows
`datetime.min` and CPython raises an uncaught `OverflowError` — although
the string parses and `now >= parse(s) - 1h` holds, where the claim
demands the function return true. -/
theorem cooldown_overflow_counterexample :
    is_cooldown_passed "01.01.0001 00:00" (-1) ⟨2025, 12, 27, 10, 0, 0⟩ =
      .error (.err "OverflowError") ∧
    parse_date "01.01.0001 00:00" = some ⟨1, 1, 1, 0, 0, 0⟩ ∧
    toSecs ⟨1, 1, 1, 0, 0, 0⟩ + (-1) * 3600 ≤ toSecs ⟨2025, 12, 27, 10, 0, 0⟩ := by
  refine ⟨rfl, by decide, by decide⟩

/-- C7 (amended: provided `parse(s) + H` hours stays inside Python's
`timedelta`/`datetime` ranges — otherwise the unguarded addition raises an
uncaught `OverflowError`): `is_cooldown_passed s H now` returns true iff
`s` is empty or whitespace-only, or unparseable in the `DD.MM.YYYY HH:MM`
display format, or `now >= parse(s) + H` hours; the empty and garbage
cases never reach the arithmetic and return true for any `H`. -/
theorem is_cooldown_passed_spec :
    (∀ (s : String) (H : Int) (now : DateTime), CooldownArithOK s H →
      (is_cooldown_passed s H now = .ok true ↔
        (pyStrip s.toList = [] ∨ parse_date s = none ∨
          ∃ lw, parse_date s = some lw ∧
            toSecs lw + H * 3600 ≤ toSecs now))) ∧
    (∀ (H : Int) (now : DateTime), is_cooldown_passed "" H now = .ok true) ∧
    (∀ (H : Int) (now : DateTime),
      is_cooldown_passed "not a date" H now = .ok true) := by
  refine ⟨?_, fun H now => rfl, fun H now => rfl⟩
  intro s H now hA
  unfold is_cooldown_passed
  by_cases hs : pyStrip s.toList = []
  · rw [if_pos hs]
    exact iff_of_true rfl (Or.inl hs)
  · rw [if_neg hs]
    cases hp : parse_date s with
    | none => simp [hp]
    | some lw =>
      unfold CooldownArithOK at hA
      simp only [hp] at hA
      obtain ⟨ha1, ha2, ha3⟩ := hA
      have hred : (match some lw with
          | none => (Except.ok true : Except PyExc Bool)
          | some last_work =>
            if tdOK (H * 3600) &&
                minSecs ≤ toSecs last_work + H * 3600 &&
                toSecs last_work + H * 3600 ≤ maxSecs then
              .ok (decide (toSecs last_work + H * 3600 ≤ toSecs now))
            else .error (.err "OverflowError")) =
          .ok (decide (toSecs lw + H * 3600 ≤ toSecs now)) := by
        simp only [ha1, decide_eq_true ha2, decide_eq_true ha3,
          Bool.true_and, Bool.and_self]
        rw [if_pos trivial]
      rw [hred]
      constructor
      · intro hb
        injection hb with hb
        exact Or.inr (Or.inr ⟨lw, rfl, of_decide_eq_true hb⟩)
      · rintro (h | h | ⟨lw', hlw', hle⟩)
        · exact absurd h hs
        · exact Option.noConfusion h
        · cases hlw'
          rw [decide_eq_true hle]

/-- Witness for C7 at an in-range input: a claim one day and one hour ago
with the default 24-hour window is eligible again. -/
theorem is_cooldown_passed_spec_witness :
    CooldownArithOK "26.12.2025 09:00" 24 ∧
    is_cooldown_passed "26.12.2025 09:00" 24 ⟨2025, 12, 27, 10, 0, 0⟩ =
      .ok true :=
  ⟨by decide,
    (is_cooldown_passed_spec.1 "26.12.2025 09:00" 24 ⟨2025, 12, 27, 10, 0, 0⟩
        (by decide)).mpr
      (Or.inr (Or.inr ⟨⟨2025, 12, 26, 9, 0, 0⟩, by decide, by decide⟩))⟩

/-- C6: on `Success` the persistence step writes `format_date now` as the
last-claim timestamp, increments the count by exactly 1, and stores the
outcome detail as the status; on every non-success outcome (and on the
dedicated cooldown update) the count is left unchanged. -/
theorem success_persistence_spec :
    (∀ (now : DateTime) (detail : String) (count : Nat) (row : Row),
      persist_after_claim now (true, detail) count row =
        ⟨format_date now, count + 1, detail⟩) ∧
    (∀ (now : DateTime) (detail : String) (count : Nat) (row : Row),
      (persist_after_claim now (false, detail) count row).kol_vo = count) ∧
    (∀ (cd : Option String) (row : Row),
      (update_profile_with_cooldown cd row).kol_vo = row.kol_vo) := by
  exact ⟨fun _ _ _ _ => rfl, fun _ _ _ _ => rfl, fun _ _ => rfl⟩

/-- C4 (divergence witness): on a `CooldownDetected` outcome the
orchestrator routes through `update_profile_result`, which stamps the
current time into `date_work` and the raw `COOLDOWN:...` message into
`status` — not the computed detail and the literal `"Cooldown"` that the
(never-called) `update_profile_with_cooldown` would have written. -/
theorem cooldown_persistence_divergence :
    persist_after_claim ⟨2025, 12, 27, 10, 0, 0⟩
        (false, "COOLDOWN:25.12.2025 14:56") 5 ⟨"", 5, ""⟩ =
      ⟨"27.12.2025 10:00", 5, "COOLDOWN:25.12.2025 14:56"⟩ ∧
    update_profile_with_cooldown (some "25.12.2025 14:56") ⟨"", 5, ""⟩ =
      ⟨"25.12.2025 14:56", 5, "Cooldown"⟩ ∧
    "27.12.2025 10:00" ≠ "25.12.2025 14:56" ∧
    "COOLDOWN:25.12.2025 14:56" ≠ "Cooldown" := by
  refine ⟨by decide, rfl, by decide, by decide⟩

/-- C5 (divergence witness): the run's startup calls
`sheets.update_yes_no_column()` before fetching the eligible list, but
`SheetsManager` defines no such method, so every run raises
`AttributeError` before `get_profiles_to_process` is ever reached. -/
theorem main_startup_always_raises (cols : Cols) (H : Int) (now : DateTime)
    (vals : List (List String)) :
    main_startup cols H now vals =
      .error (.err "AttributeError: 'SheetsManager' object has no attribute 'update_yes_no_column'") := by
  rfl

/-- C9: as long as no profile's processing ends in a `KeyboardInterrupt`
(user cancellation, a `BaseException` the spec treats separately), the
orchestrator loop runs to the end of the profile list: every profile is
counted, successes are exactly the `.ok true` outcomes, and every
exception escaping `process_profile` (acquisition, page setup, claim
protocol, persistence, or the unguarded `finally` stop) is caught by the
loop and counted as a failure rather than aborting the run. -/
theorem orchestrator_loop_never_aborts (evs : List ProfileEvents)
    (hnokb : evs.all (fun ev => !endsInKb (process_profile ev)) = true) :
    (main_loop evs).1 = evs.countP (fun ev => isOkTrue (process_profile ev)) ∧
    (main_loop evs).1 + (main_loop evs).2 = evs.length := by
  induction evs with
  | nil => exact ⟨rfl, rfl⟩
  | cons ev rest ih =>
    rw [List.all_cons, Bool.and_eq_true] at hnokb
    obtain ⟨hev, hrest⟩ := hnokb
    obtain ⟨ih1, ih2⟩ := ih hrest
    cases hp : process_profile ev with
    | ok b =>
      cases b with
      | true =>
        have hc : List.countP (fun ev => isOkTrue (process_profile ev))
              (ev :: rest) =
            List.countP (fun ev => isOkTrue (process_profile ev)) rest + 1 := by
          rw [List.countP_cons]; simp [isOkTrue, hp]
        constructor
        · rw [hc]; simp only [main_loop, hp]; omega
        · simp only [main_loop, hp, List.length_cons]; omega
      | false =>
        have hc : List.countP (fun ev => isOkTrue (process_profile ev))
              (ev :: rest) =
            List.countP (fun ev => isOkTrue (process_profile ev)) rest := by
          rw [List.countP_cons]; simp [isOkTrue, hp]
        constructor
        · rw [hc]; simp only [main_loop, hp]; omega
        · simp only [main_loop, hp, List.length_cons]; omega
    | error e =>
      cases e with
      | err m =>
        have hc : List.countP (fun ev => isOkTrue (process_profile ev))
              (ev :: rest) =
            List.countP (fun ev => isOkTrue (process_profile ev)) rest := by
          rw [List.countP_cons]; simp [isOkTrue, hp]
        constructor
        · rw [hc]; simp only [main_loop, hp]; omega
        · simp only [main_loop, hp, List.length_cons]; omega
      | kb => rw [hp] at hev; simp [endsInKb] at hev

/-- Witness for C9 at a concrete run: one profile whose browser
acquisition raises, one clean success, and one whose `finally`-block
browser stop raises; the loop counts 1 success and 2 failures and
processes all 3 profiles. -/
theorem orchestrator_loop_never_aborts_witness :
    ([acquireFailEv, okEv, stopFailEv].all
        (fun ev => !endsInKb (process_profile ev)) = true) ∧
    (main_loop [acquireFailEv, okEv, stopFailEv]).1 =
      [acquireFailEv, okEv, stopFailEv].countP
        (fun ev => isOkTrue (process_profile ev)) ∧
    (main_loop [acquireFailEv, okEv, stopFailEv]).1 +
      (main_loop [acquireFailEv, okEv, stopFailEv]).2 = 3 :=
  ⟨by decide,
    (orchestrator_loop_never_aborts [acquireFailEv, okEv, stopFailEv]
      (by decide)).1,
    (orchestrator_loop_never_aborts [acquireFailEv, okEv, stopFailEv]
      (by decide)).2⟩

-- Helper lemmas on the claim state machine (shared by several claims).

theorem check_for_error_some (raw : Option String) :
    check_for_error (some raw) = (true, (check_for_error (some raw)).2) := rfl

theorem check_for_cooldown_some_shape (env : AttemptEnv) (b : Bool)
    (d : String) (h : check_for_cooldown env = (b, some d)) :
    ∃ t, d = format_date t := by
  unfold check_for_cooldown at h
  dsimp only [] at h
  split at h
  · simp at h
  · simp at h
  · split at h
    · simp at h
    · split at h
      · injection h with h1 h2
        injection h2 with h3
        exact ⟨_, h3.symm⟩
      · simp at h

theorem parse_rate_limit_date_some_shape (off : Int) (msg d : String)
    (h : parse_rate_limit_date off msg = some d) : ∃ t, d = format_date t := by
  unfold parse_rate_limit_date at h
  dsimp only [] at h
  split at h
  · cases h
  · split at h
    · split at h
      · injection h with h1
        exact ⟨_, h1.symm⟩
      · cases h
    · cases h

/-- Every early `return` of the loop body is either the success pair
`(True, "OK")` or a cooldown pair `(False, "COOLDOWN:" ++ s)` with `s`
either the literal `"unknown"` or the display rendering of a computed
timestamp. -/
theorem attemptBody_inl_shape (env : AttemptEnv) (le : String)
    (res : Bool × String) (h : attemptBody env le = .inl res) :
    res = (true, "OK") ∨
      ∃ s, res = (false, "COOLDOWN:" ++ s) ∧
        (s = "unknown" ∨ ∃ t, s = format_date t) := by
  have hunk : ("COOLDOWN:unknown" : String) = "COOLDOWN:" ++ "unknown" := by
    decide
  unfold attemptBody at h
  split at h
  · cases h
  · split at h
    · cases h
    · split at h
      · cases h
      · split at h
        case _ d heq =>
          obtain ⟨t, ht⟩ := check_for_cooldown_some_shape env _ _ heq
          cases h
          exact Or.inr ⟨d, rfl, Or.inr ⟨t, ht⟩⟩
        case _ heq =>
          cases h
          exact Or.inr ⟨"unknown", by rw [hunk], Or.inl rfl⟩
        case _ =>
          split at h
          · cases h
          · split at h
            case _ msg heq =>
              split at h
              · split at h
                case _ d hpr =>
                  obtain ⟨t, ht⟩ := parse_rate_limit_date_some_shape _ _ _ hpr
                  cases h
                  exact Or.inr ⟨d, rfl, Or.inr ⟨t, ht⟩⟩
                case _ =>
                  cases h
                  exact Or.inr ⟨"unknown", by rw [hunk], Or.inl rfl⟩
              · cases h
            case _ heq =>
              split at h
              · cases h
              · split at h
                · cases h
                · split at h
                  · cases h
                    exact Or.inl rfl
                  · split at h
                    case _ msg heq2 =>
                      split at h
                      · split at h
                        case _ d hpr =>
                          obtain ⟨t, ht⟩ :=
                            parse_rate_limit_date_some_shape _ _ _ hpr
                          cases h
                          exact Or.inr ⟨d, rfl, Or.inr ⟨t, ht⟩⟩
                        case _ =>
                          cases h
                          exact Or.inr ⟨"unknown", by rw [hunk], Or.inl rfl⟩
                      · split at h
                        · split at h <;> cases h
                        · cases h
                    case _ heq2 =>
                      split at h
                      · cases h
                        exact Or.inl rfl
                      · cases h

/-- An early `return` in some iteration ends the loop with that value. -/
theorem claim_loop_inl (envs : Nat → AttemptEnv) (done r : Nat) (le : String)
    (res : Bool × String) (h : attemptBody (envs done) le = .inl res) :
    claim_loop envs done (r + 1) le = res := by
  simp [claim_loop, h]

/-- Exhausting the budget returns the recorded error or the fallback. -/
theorem claim_loop_zero (envs : Nat → AttemptEnv) (done : Nat) (le : String) :
    claim_loop envs done 0 le =
      (false, if le = "" then "Max retries exceeded" else le) := rfl

/-- The loop executes at most as many iterations as its budget. -/
theorem claimAttempts_le (envs : Nat → AttemptEnv) :
    ∀ (rem done : Nat) (le : String), claimAttempts envs done rem le ≤ rem := by
  intro rem
  induction rem with
  | zero => intro done le; exact Nat.le_refl 0
  | succ r ih =>
    intro done le
    unfold claimAttempts
    split
    · omega
    · rename_i le' heq
      have h2 := ih (done + 1) le'
      omega

/-- An early return in the first iteration means one iteration total. -/
theorem claimAttempts_one (envs : Nat → AttemptEnv) (r : Nat) (le : String)
    (res : Bool × String) (h : attemptBody (envs 0) le = .inl res) :
    claimAttempts envs 0 (r + 1) le = 1 := by
  simp [claimAttempts, h]

/-- When the attempt reaches the probe and the cooldown control is present
with non-empty text, the loop body returns the reconstructed last-claim
time immediately. -/
theorem attemptBody_cooldown (env : AttemptEnv) (le : String) (txt : String)
    (hp : reachesProbe env) (hb : env.cooldownBtn = some (some txt))
    (hne : txt ≠ "") (hr : probeInRange env txt) :
    attemptBody env le = .inl (false, "COOLDOWN:" ++
      format_date (ofSecs (toSecs env.now - (86400 - remainingSecs txt)))) := by
  obtain ⟨hg, hl, hi⟩ := hp
  obtain ⟨h1, h2, h3, h4⟩ := hr
  unfold remainingSecs at h1 h2 h3 h4 ⊢
  have hcc : check_for_cooldown env = (true, some (format_date (ofSecs
      (toSecs env.now -
        (86400 - (3600 * ((findNum 'h' txt.toList).getD 0 : Nat) +
          60 * ((findNum 'm' txt.toList).getD 0 : Nat) +
          ((findNum 's' txt.toList).getD 0 : Nat))))))) := by
    unfold check_for_cooldown
    rw [hb]
    dsimp only
    rw [if_neg hne, h1, h2, decide_eq_true h3, decide_eq_true h4]
    rfl
  cases hl2 : env.loadErr with
  | none =>
    unfold attemptBody
    rw [hg, hl2, hi, hcc]
  | some e =>
    cases e with
    | other m => exact absurd hl2 (hl m)
    | timeout m =>
      unfold attemptBody
      rw [hg, hl2, hi, hcc]

/-- When the attempt reaches the probe and the cooldown control is present
with falsy (missing or empty) text, the loop body returns
`COOLDOWN:unknown` immediately. -/
theorem attemptBody_cooldown_unknown (env : AttemptEnv) (le : String)
    (hp : reachesProbe env)
    (hb : env.cooldownBtn = some none ∨ env.cooldownBtn = some (some "")) :
    attemptBody env le = .inl (false, "COOLDOWN:unknown") := by
  obtain ⟨hg, hl, hi⟩ := hp
  have hcc : check_for_cooldown env = (true, none) := by
    rcases hb with hb | hb
    · unfold check_for_cooldown; rw [hb]
    · unfold check_for_cooldown; rw [hb]; rfl
  cases hl2 : env.loadErr with
  | none =>
    unfold attemptBody
    rw [hg, hl2, hi, hcc]
  | some e =>
    cases e with
    | other m => exact absurd hl2 (hl m)
    | timeout m =>
      unfold attemptBody
      rw [hg, hl2, hi, hcc]

/-- When the attempt reaches the post-typing error check with no cooldown
control shown, and the error region's text matches the rate-limit pattern,
the loop body returns the parsed equivalent-last-claim time (or
`unknown`) immediately. -/
theorem attemptBody_ratelimit (env : AttemptEnv) (le : String)
    (hp : reachesProbe env) (hb : env.cooldownBtn = none)
    (ht : env.typeErr = none) (raw : Option String)
    (he : env.errAfterType = some raw)
    (hrl : isRateLimited (check_for_error (some raw)).2 = true) :
    attemptBody env le = .inl (false, "COOLDOWN:" ++
      (parse_rate_limit_date env.localOffset
        (check_for_error (some raw)).2).getD "unknown") := by
  obtain ⟨hg, hl, hi⟩ := hp
  have hcc : check_for_cooldown env = (false, none) := by
    unfold check_for_cooldown; rw [hb]
  have hstep : ∀ u : Unit,
      (match check_for_error env.errAfterType with
        | (true, error_msg) =>
          if isRateLimited error_msg then
            match parse_rate_limit_date env.localOffset error_msg with
            | some calculated_date =>
              Sum.inl (α := Bool × String) (β := String)
                (false, "COOLDOWN:" ++ calculated_date)
            | none => Sum.inl (false, "COOLDOWN:unknown")
          else Sum.inr error_msg
        | (false, _) =>
          match env.sendWaitErr with
          | some e => Sum.inr (excMsg e)
          | none =>
          match env.clickErr with
          | some e => Sum.inr (excMsg e)
          | none =>
          if env.success1 then Sum.inl (true, "OK")
          else
          match check_for_error env.errAfterClick with
          | (true, error_msg) =>
            if isRateLimited error_msg then
              match parse_rate_limit_date env.localOffset error_msg with
              | some calculated_date =>
                Sum.inl (false, "COOLDOWN:" ++ calculated_date)
              | none => Sum.inl (false, "COOLDOWN:unknown")
            else if isCaptcha error_msg then
              match env.reloadErr with
              | some e => Sum.inr (excMsg e)
              | none => Sum.inr error_msg
            else Sum.inr error_msg
          | (false, _) =>
          if env.success2 then Sum.inl (true, "OK")
          else Sum.inr "Unknown state after clicking send") =
      .inl (false, "COOLDOWN:" ++
        (parse_rate_limit_date env.localOffset
          (check_for_error (some raw)).2).getD "unknown") := by
    intro _
    rw [he]
    split
    case _ msg heq =>
      have hmsg : msg = (check_for_error (some raw)).2 := by rw [heq]
      rw [hmsg, hrl, if_pos rfl]
      cases hpr : parse_rate_limit_date env.localOffset
          (check_for_error (some raw)).2 with
      | none => simp only [Option.getD]; decide
      | some d => simp only [Option.getD]
    case _ b heq =>
      exact Bool.noConfusion (congrArg Prod.fst heq)
  cases hl2 : env.loadErr with
  | none =>
    unfold attemptBody
    rw [hg, hl2, hi, hcc, ht]
    exact hstep ()
  | some e =>
    cases e with
    | other m => exact absurd hl2 (hl m)
    | timeout m =>
      unfold attemptBody
      rw [hg, hl2, hi, hcc, ht]
      exact hstep ()

/-- When the attempt makes it through typing and the send click with no
cooldown control, no post-typing error and no success indicator, and the
error region consulted after the click matches the rate-limit pattern,
the loop body returns the parsed equivalent-last-claim time (or
`unknown`) immediately. -/
theorem attemptBody_ratelimit_postclick (env : AttemptEnv) (le : String)
    (hp : reachesProbe env) (hb : env.cooldownBtn = none)
    (ht : env.typeErr = none) (he : env.errAfterType = none)
    (hsw : env.sendWaitErr = none) (hck : env.clickErr = none)
    (hs1 : env.success1 = false) (raw : Option String)
    (heac : env.errAfterClick = some raw)
    (hrl : isRateLimited (check_for_error (some raw)).2 = true) :
    attemptBody env le = .inl (false, "COOLDOWN:" ++
      (parse_rate_limit_date env.localOffset
        (check_for_error (some raw)).2).getD "unknown") := by
  obtain ⟨hg, hl, hi⟩ := hp
  have hcc : check_for_cooldown env = (false, none) := by
    unfold check_for_cooldown; rw [hb]
  have hstep : (match check_for_error env.errAfterClick with
      | (true, error_msg) =>
        if isRateLimited error_msg then
          match parse_rate_limit_date env.localOffset error_msg with
          | some calculated_date =>
            Sum.inl (α := Bool × String) (β := String)
              (false, "COOLDOWN:" ++ calculated_date)
          | none => Sum.inl (false, "COOLDOWN:unknown")
        else if isCaptcha error_msg then
          match env.reloadErr with
          | some e => Sum.inr (excMsg e)
          | none => Sum.inr error_msg
        else Sum.inr error_msg
      | (false, _) =>
        if env.success2 then Sum.inl (true, "OK")
        else Sum.inr "Unknown state after clicking send") =
      .inl (false, "COOLDOWN:" ++
        (parse_rate_limit_date env.localOffset
          (check_for_error (some raw)).2).getD "unknown") := by
    rw [heac]
    split
    case _ msg heq =>
      have hmsg : msg = (check_for_error (some raw)).2 := by rw [heq]
      rw [hmsg, hrl, if_pos rfl]
      cases hpr : parse_rate_limit_date env.localOffset
          (check_for_error (some raw)).2 with
      | none => simp only [Option.getD]; decide
      | some d => simp only [Option.getD]
    case _ b heq =>
      exact Bool.noConfusion (congrArg Prod.fst heq)
  cases hl2 : env.loadErr with
  | none =>
    unfold attemptBody
    rw [hg, hl2, hi, hcc, ht, he, hsw, hck, hs1]
    exact hstep
  | some e =>
    cases e with
    | other m => exact absurd hl2 (hl m)
    | timeout m =>
      unfold attemptBody
      rw [hg, hl2, hi, hcc, ht, he, hsw, hck, hs1]
      exact hstep

/-- C1: when the pre-typing cooldown probe finds a `Come back in` control,
`claim_faucet` parses `h`/`m`/`s` from its text (absent units defaulting
to 0), computes `remaining`, `time_since_last_claim = 24h − remaining`
and `equivalent_last_claim = now − time_since_last_claim` formatted in the
display format, and terminates immediately — in one iteration, for every
later page behaviour, so never retried — with
`(False, "COOLDOWN:<that time>")`, or `(False, "COOLDOWN:unknown")` when
the control's text is missing/empty. -/
theorem cooldown_probe_terminal (cfg : FaucetConfig)
    (envs : Nat → AttemptEnv) (hrc : 0 < resolvedRetry cfg)
    (hp : reachesProbe (envs 0)) :
    (∀ txt : String, (envs 0).cooldownBtn = some (some txt) → txt ≠ "" →
      probeInRange (envs 0) txt →
      claim_faucet cfg envs = (false, "COOLDOWN:" ++
        format_date (ofSecs
          (toSecs (envs 0).now - (86400 - remainingSecs txt)))) ∧
      claimAttemptsUsed cfg envs = 1) ∧
    (((envs 0).cooldownBtn = some none ∨
        (envs 0).cooldownBtn = some (some "")) →
      claim_faucet cfg envs = (false, "COOLDOWN:unknown") ∧
      claimAttemptsUsed cfg envs = 1) := by
  obtain ⟨r, hr⟩ : ∃ r, resolvedRetry cfg = r + 1 :=
    ⟨resolvedRetry cfg - 1, by omega⟩
  constructor
  · intro txt hb hne hir
    have hab := attemptBody_cooldown (envs 0) "" txt hp hb hne hir
    unfold claim_faucet claimAttemptsUsed
    rw [hr]
    exact ⟨claim_loop_inl envs 0 r "" _ hab, claimAttempts_one envs r "" _ hab⟩
  · intro hb
    have hab := attemptBody_cooldown_unknown (envs 0) "" hp hb
    unfold claim_faucet claimAttemptsUsed
    rw [hr]
    exact ⟨claim_loop_inl envs 0 r "" _ hab, claimAttempts_one envs r "" _ hab⟩

/-- Witness for C1: the control shows `Come back in 23h 11m 49s` at
27.12.2025 10:00:00 local; remaining = 83509s, time since last claim =
2891s, so the reconstructed last claim is 27.12.2025 09:11:49, formatted
to the minute; the machine stops after one iteration. -/
theorem cooldown_probe_terminal_witness :
    claim_faucet ⟨none⟩ (fun _ => cooldownEnv) =
      (false, "COOLDOWN:27.12.2025 09:11") ∧
    claimAttemptsUsed ⟨none⟩ (fun _ => cooldownEnv) = 1 := by
  have h := (cooldown_probe_terminal ⟨none⟩ (fun _ => cooldownEnv)
      (by decide)
      ⟨rfl, fun m hm => Option.noConfusion hm, rfl⟩).1
      "Come back in 23h 11m 49s" rfl (by decide) (by decide)
  refine ⟨?_, h.2⟩
  rw [h.1]
  decide

/-- C2: whenever the consulted error-region text matches the rate-limit
pattern (case-insensitive `rate limit` or `24 hour`) — at the post-typing
check or at the post-click re-check (which runs when no success indicator
was found) — `claim_faucet` terminates in that same iteration, for every
later page behaviour, so never retried, with `(False, "COOLDOWN:<t>")`
where `<t>` comes from extracting the embedded ISO `YYYY-MM-DDTHH:MM:SS`
timestamp, interpreting it as UTC (adding the local offset), and
subtracting the 24-hour window (`"unknown"` when no timestamp can be
extracted or it is invalid). -/
theorem ratelimit_terminal (cfg : FaucetConfig) (envs : Nat → AttemptEnv)
    (hrc : 0 < resolvedRetry cfg) (hp : reachesProbe (envs 0))
    (hb : (envs 0).cooldownBtn = none) (ht : (envs 0).typeErr = none) :
    (∀ raw : Option String, (envs 0).errAfterType = some raw →
      isRateLimited (check_for_error (some raw)).2 = true →
      claim_faucet cfg envs = (false, "COOLDOWN:" ++
        (parse_rate_limit_date (envs 0).localOffset
          (check_for_error (some raw)).2).getD "unknown") ∧
      claimAttemptsUsed cfg envs = 1) ∧
    (∀ raw : Option String, (envs 0).errAfterType = none →
      (envs 0).sendWaitErr = none → (envs 0).clickErr = none →
      (envs 0).success1 = false → (envs 0).errAfterClick = some raw →
      isRateLimited (check_for_error (some raw)).2 = true →
      claim_faucet cfg envs = (false, "COOLDOWN:" ++
        (parse_rate_limit_date (envs 0).localOffset
          (check_for_error (some raw)).2).getD "unknown") ∧
      claimAttemptsUsed cfg envs = 1) ∧
    (∀ (off : Int) (msg : String) (y mo d h mi s : Nat),
      findIso msg.toList = some (y, mo, d, h, mi, s) →
      IsoOK y mo d h mi s →
      rlInRange off y mo d h mi s →
      parse_rate_limit_date off msg =
        some (format_date (ofSecs
          (toSecs ⟨y, mo, d, h, mi, s⟩ + off - 86400)))) := by
  obtain ⟨r, hr⟩ : ∃ r, resolvedRetry cfg = r + 1 :=
    ⟨resolvedRetry cfg - 1, by omega⟩
  refine ⟨?_, ?_, ?_⟩
  · intro raw he hrl
    have hab := attemptBody_ratelimit (envs 0) "" hp hb ht raw he hrl
    unfold claim_faucet claimAttemptsUsed
    rw [hr]
    exact ⟨claim_loop_inl envs 0 r "" _ hab, claimAttempts_one envs r "" _ hab⟩
  · intro raw he hsw hck hs1 heac hrl
    have hab := attemptBody_ratelimit_postclick (envs 0) "" hp hb ht he hsw
      hck hs1 raw heac hrl
    unfold claim_faucet claimAttemptsUsed
    rw [hr]
    exact ⟨claim_loop_inl envs 0 r "" _ hab, claimAttempts_one envs r "" _ hab⟩
  · intro off msg y mo d h mi s hfind hiso hrange
    unfold IsoOK at hiso
    obtain ⟨ho1, ho2, ho3, ho4, ho5⟩ := hrange
    unfold parse_rate_limit_date
    rw [hfind]
    dsimp only
    rw [if_pos hiso, ho1, decide_eq_true ho2, decide_eq_true ho3,
      decide_eq_true ho4, decide_eq_true ho5]
    rfl

/-- Witness for C2 at both check sites: the error text
`Rate limit reached. Try again after 2025-12-27T10:16:22.424Z` at local
offset +03:00 — shown either right after typing or only after the click —
yields last claim = (2025-12-27 13:16:22 local) − 24h, formatted
`26.12.2025 13:16`; one iteration in both runs. -/
theorem ratelimit_terminal_witness :
    claim_faucet ⟨none⟩ (fun _ => rlEnv) =
      (false, "COOLDOWN:26.12.2025 13:16") ∧
    claimAttemptsUsed ⟨none⟩ (fun _ => rlEnv) = 1 ∧
    claim_faucet ⟨none⟩ (fun _ => rlClickEnv) =
      (false, "COOLDOWN:26.12.2025 13:16") ∧
    claimAttemptsUsed ⟨none⟩ (fun _ => rlClickEnv) = 1 ∧
    parse_rate_limit_date 10800
        "Rate limit reached. Try again after 2025-12-27T10:16:22.424Z" =
      some "26.12.2025 13:16" := by
  have h := ratelimit_terminal ⟨none⟩ (fun _ => rlEnv) (by decide)
      ⟨rfl, fun m hm => Option.noConfusion hm, rfl⟩ rfl rfl
  have h1 := h.1
      (some "Rate limit reached. Try again after 2025-12-27T10:16:22.424Z")
      rfl (by decide)
  have hc := ratelimit_terminal ⟨none⟩ (fun _ => rlClickEnv) (by decide)
      ⟨rfl, fun m hm => Option.noConfusion hm, rfl⟩ rfl rfl
  have h2 := hc.2.1
      (some "Rate limit reached. Try again after 2025-12-27T10:16:22.424Z")
      rfl rfl rfl rfl rfl (by decide)
  refine ⟨?_, h1.2, ?_, h2.2, ?_⟩
  · rw [h1.1]
    decide
  · rw [h2.1]
    decide
  · have h3 := h.2.2 10800
        "Rate limit reached. Try again after 2025-12-27T10:16:22.424Z"
        2025 12 27 10 16 22 (by decide) (by decide) (by decide)
    exact h3.trans (by decide)

/-- C3 (counterexample to the exact fallback literal): a page whose error
region holds whitespace-only text makes every attempt record an empty
`last_error` and retry; after the default 3 attempts `claim_faucet`
returns the fallback `"Max retries exceeded"` — capitalised, not the
claimed literal `'max retries exceeded'`. -/
theorem bounded_retry_counterexample :
    claim_faucet ⟨none⟩ (fun _ => blankErrEnv) =
      (false, "Max retries exceeded") ∧
    claimAttemptsUsed ⟨none⟩ (fun _ => blankErrEnv) = 3 ∧
    "Max retries exceeded" ≠ "max retries exceeded" := by
  refine ⟨by decide, by decide, by decide⟩

/-- C3 (amended: the fallback message is `"Max retries exceeded"`): the
navigate→fill→submit loop executes at most `retry_count` iterations
(default 3) and always terminates (the loop recursion is structurally
bounded by its budget); any early return — `Success` or either
`CooldownDetected` form — ends the loop with no further iteration; and
when the budget is exhausted the result carries the last recorded error
text, or `"Max retries exceeded"` when none was recorded. -/
theorem bounded_retry_spec :
    (∀ (cfg : FaucetConfig) (envs : Nat → AttemptEnv),
      claimAttemptsUsed cfg envs ≤ resolvedRetry cfg) ∧
    (∀ (envs : Nat → AttemptEnv) (done r : Nat) (le : String)
        (res : Bool × String),
      attemptBody (envs done) le = .inl res →
        claim_loop envs done (r + 1) le = res ∧
        claimAttempts envs done (r + 1) le = 1) ∧
    (∀ (envs : Nat → AttemptEnv) (done : Nat) (le : String),
      claim_loop envs done 0 le =
        (false, if le = "" then "Max retries exceeded" else le)) ∧
    (∀ cfg : FaucetConfig, cfg.retry_count = none → resolvedRetry cfg = 3) := by
  refine ⟨?_, ?_, ?_, ?_⟩
  · intro cfg envs
    exact claimAttempts_le envs (resolvedRetry cfg) 0 ""
  · intro envs done r le res h
    exact ⟨by simp [claim_loop, h], by simp [claimAttempts, h]⟩
  · intro envs done le
    rfl
  · intro cfg h
    rw [resolvedRetry, h]
    rfl

/-- Witness for C3: a successful attempt ends the loop at once with
`(True, "OK")`; the default budget is 3 and is never exceeded. -/
theorem bounded_retry_spec_witness :
    claim_loop (fun _ => okEnv) 0 1 "" = (true, "OK") ∧
    claimAttemptsUsed ⟨none⟩ (fun _ => okEnv) ≤ resolvedRetry ⟨none⟩ ∧
    resolvedRetry ⟨none⟩ = 3 :=
  ⟨(bounded_retry_spec.2.1 (fun _ => okEnv) 0 0 "" (true, "OK")
      (by decide)).1,
    bounded_retry_spec.1 ⟨none⟩ (fun _ => okEnv),
    bounded_retry_spec.2.2.2 ⟨none⟩ rfl⟩

/-- C10 (counterexample to "precisely"): a page whose error region shows
the literal text `COOLDOWN:page says so` makes the exhausted-retries
return echo it, so a returned message can begin with `COOLDOWN:` outside
the terminal cooldown/rate-limit cases, and its remainder is neither a
display-format date nor the literal `unknown`. -/
theorem outcome_shape_counterexample :
    claim_faucet ⟨none⟩ (fun _ => echoEnv) =
      (false, "COOLDOWN:page says so") ∧
    "COOLDOWN:page says so" = "COOLDOWN:" ++ "page says so" ∧
    "page says so" ≠ "unknown" ∧
    parse_date "page says so" = none := by
  refine ⟨by decide, by decide, by decide, by decide⟩

theorem claim_loop_inr (envs : Nat → AttemptEnv) (done r : Nat)
    (le le' : String) (h : attemptBody (envs done) le = .inr le') :
    claim_loop envs done (r + 1) le = claim_loop envs (done + 1) r le' := by
  simp [claim_loop, h]

theorem claim_loop_true_ok (envs : Nat → AttemptEnv) :
    ∀ (rem done : Nat) (le : String),
      (claim_loop envs done rem le).1 = true →
      (claim_loop envs done rem le).2 = "OK" := by
  intro rem
  induction rem with
  | zero =>
    intro done le h
    rw [claim_loop_zero] at h
    cases h
  | succ r ih =>
    intro done le h
    cases hab : attemptBody (envs done) le with
    | inl res =>
      rw [claim_loop_inl envs done r le res hab] at h ⊢
      rcases attemptBody_inl_shape (envs done) le res hab with hok | ⟨s, hs, _⟩
      · rw [hok]
      · rw [hs] at h
        simp at h
    | inr le' =>
      rw [claim_loop_inr envs done r le le' hab] at h ⊢
      exact ih (done + 1) le' h

/-- C10 (amended: the `COOLDOWN:` prefix is guaranteed in the terminal
cooldown-timer and rate-limit cases, but an exhausted-retries message
echoes page-supplied error text and may itself begin with `COOLDOWN:`):
every `claim_faucet` return with first component `True` carries exactly
the message `"OK"`, and every early return of the loop body is either
`(True, "OK")` or `(False, "COOLDOWN:" ++ s)` with `s` the literal
`"unknown"` or the display rendering of the computed timestamp. -/
theorem outcome_shape_spec :
    (∀ (cfg : FaucetConfig) (envs : Nat → AttemptEnv),
      (claim_faucet cfg envs).1 = true → (claim_faucet cfg envs).2 = "OK") ∧
    (∀ (env : AttemptEnv) (le : String) (res : Bool × String),
      attemptBody env le = .inl res →
        res = (true, "OK") ∨
          ∃ s, res = (false, "COOLDOWN:" ++ s) ∧
            (s = "unknown" ∨ ∃ t, s = format_date t)) :=
  ⟨fun cfg envs => claim_loop_true_ok envs (resolvedRetry cfg) 0 "",
    attemptBody_inl_shape⟩

/-- Witness for C10 at a concrete run: a successful claim returns with
message exactly `"OK"`. -/
theorem outcome_shape_spec_witness :
    (claim_faucet ⟨none⟩ (fun _ => okEnv)).2 = "OK" :=
  outcome_shape_spec.1 ⟨none⟩ (fun _ => okEnv) (by decide)

-- Digit-character lemmas and reader lemmas for the round-trip proof.

theorem digit_base : ∀ k, k < 10 →
    (Char.ofNat (48 + k)).isDigit = true ∧
    (Char.ofNat (48 + k)).toNat - 48 = k ∧
    (Char.ofNat (48 + k)).isWhitespace = false := by decide

theorem digit_isDigit (n : Nat) : (digit n).isDigit = true :=
  (digit_base (n % 10) (Nat.mod_lt n (by norm_num))).1

theorem dval_digit (n : Nat) : dval (digit n) = n % 10 :=
  (digit_base (n % 10) (Nat.mod_lt n (by norm_num))).2.1

theorem digit_not_ws (n : Nat) : (digit n).isWhitespace = false :=
  (digit_base (n % 10) (Nat.mod_lt n (by norm_num))).2.2

theorem dropWhile_ws_digit (n : Nat) (l : List Char) :
    (digit n :: l).dropWhile Char.isWhitespace = digit n :: l := by
  rw [List.dropWhile_cons, digit_not_ws]
  simp

theorem pyStrip_eq_self {l : List Char}
    (h1 : l.dropWhile Char.isWhitespace = l)
    (h2 : l.reverse.dropWhile Char.isWhitespace = l.reverse) :
    pyStrip l = l := by
  unfold pyStrip
  rw [h1, h2, List.reverse_reverse]

theorem formatChars_head (t : DateTime) :
    ∃ l', formatChars t = digit (t.day / 10) :: l' := ⟨_, rfl⟩

theorem formatChars_split (t : DateTime) :
    formatChars t =
      (pad2chars t.day ++ '.' :: pad2chars t.month ++
        '.' :: yearChars t.year ++
        [' ', digit (t.hour / 10), digit t.hour, ':', digit (t.minute / 10)]) ++
      [digit t.minute] := by
  simp [formatChars, pad2chars, List.append_assoc]

theorem formatChars_rev_head (t : DateTime) :
    ∃ l', (formatChars t).reverse = digit t.minute :: l' := by
  refine ⟨(pad2chars t.day ++ '.' :: pad2chars t.month ++
      '.' :: yearChars t.year ++
      [' ', digit (t.hour / 10), digit t.hour, ':',
        digit (t.minute / 10)]).reverse, ?_⟩
  rw [formatChars_split, List.reverse_append]
  rfl

/-- A formatted display string has no leading/trailing whitespace, so
Python's `strip` leaves it unchanged. -/
theorem pyStrip_formatChars (t : DateTime) :
    pyStrip (formatChars t) = formatChars t := by
  obtain ⟨l1, h1⟩ := formatChars_head t
  obtain ⟨l2, h2⟩ := formatChars_rev_head t
  apply pyStrip_eq_self
  · rw [h1]; exact dropWhile_ws_digit _ _
  · rw [h2]; exact dropWhile_ws_digit _ _

theorem read2or1_pad2 (twoOK oneOK : Nat → Bool) (n : Nat)
    (rest : List Char) (hn : n < 100) (h2 : twoOK n = true) :
    read2or1 twoOK oneOK (pad2chars n ++ rest) = some (n, rest) := by
  have hsplit : pad2chars n ++ rest = digit (n / 10) :: digit n :: rest := rfl
  have hval : 10 * dval (digit (n / 10)) + dval (digit n) = n := by
    rw [dval_digit, dval_digit]
    omega
  rw [hsplit]
  simp only [read2or1]
  rw [digit_isDigit, digit_isDigit, hval, h2]
  simp

theorem read4_pad4 (y : Nat) (rest : List Char) (hy : y < 10000) :
    read4 (pad4chars y ++ rest) = some (y, rest) := by
  have hsplit : pad4chars y ++ rest =
      digit (y / 1000) :: digit (y / 100) :: digit (y / 10) :: digit y ::
        rest := rfl
  have hval : 1000 * dval (digit (y / 1000)) + 100 * dval (digit (y / 100)) +
      10 * dval (digit (y / 10)) + dval (digit y) = y := by
    rw [dval_digit, dval_digit, dval_digit, dval_digit]
    omega
  rw [hsplit]
  simp only [read4]
  rw [digit_isDigit, digit_isDigit, digit_isDigit, digit_isDigit, hval]
  simp

theorem readLit_cons (c : Char) (rest : List Char) :
    readLit c (c :: rest) = some rest := by
  simp [readLit]

theorem daysInMonth_le_31 (y m : Nat) : daysInMonth y m ≤ 31 := by
  unfold daysInMonth
  split
  · split <;> omega
  · split <;> omega

/-- `strptime` reads back exactly the fields that `strftime` printed. -/
theorem strptime_formatChars (t : DateTime) (h : ValidDT t)
    (hY : 1000 ≤ t.year) :
    strptimeDMYHM (formatChars t) =
      some ⟨t.year, t.month, t.day, t.hour, t.minute, 0⟩ := by
  obtain ⟨hy1, hy2, hm1, hm2, hd1, hd2, hh, hmi, _⟩ := h
  have hd31 : t.day ≤ 31 := Nat.le_trans hd2 (daysInMonth_le_31 _ _)
  have hyc : yearChars t.year = pad4chars t.year := by
    unfold yearChars
    rw [if_neg (by omega), if_neg (by omega), if_neg (by omega)]
  have e1 : read2or1 (fun v => 1 ≤ v && v ≤ 31) (fun v => 1 ≤ v && v ≤ 9)
      (formatChars t) = some (t.day, '.' :: (pad2chars t.month ++
        '.' :: (pad4chars t.year ++ ' ' :: (pad2chars t.hour ++
          ':' :: pad2chars t.minute)))) := by
    have hfc : formatChars t = pad2chars t.day ++ ('.' :: (pad2chars t.month ++
        '.' :: (pad4chars t.year ++ ' ' :: (pad2chars t.hour ++
          ':' :: pad2chars t.minute)))) := by
      unfold formatChars
      rw [hyc]
      rfl
    rw [hfc]
    apply read2or1_pad2 _ _ _ _ (by omega)
    rw [decide_eq_true hd1, decide_eq_true hd31]
    rfl
  have e2 : read2or1 (fun v => 1 ≤ v && v ≤ 12) (fun v => 1 ≤ v && v ≤ 9)
      (pad2chars t.month ++ '.' :: (pad4chars t.year ++
        ' ' :: (pad2chars t.hour ++ ':' :: pad2chars t.minute))) =
      some (t.month, '.' :: (pad4chars t.year ++
        ' ' :: (pad2chars t.hour ++ ':' :: pad2chars t.minute))) := by
    apply read2or1_pad2 _ _ _ _ (by omega)
    rw [decide_eq_true hm1, decide_eq_true hm2]
    rfl
  have e3 : read4 (pad4chars t.year ++ ' ' :: (pad2chars t.hour ++
      ':' :: pad2chars t.minute)) =
      some (t.year, ' ' :: (pad2chars t.hour ++ ':' :: pad2chars t.minute)) :=
    read4_pad4 _ _ (by omega)
  have e4 : read2or1 (fun v => v ≤ 23) (fun v => v ≤ 9)
      (pad2chars t.hour ++ ':' :: pad2chars t.minute) =
      some (t.hour, ':' :: pad2chars t.minute) := by
    apply read2or1_pad2 _ _ _ _ (by omega)
    exact decide_eq_true hh
  have e5 : read2or1 (fun v => v ≤ 59) (fun v => v ≤ 9)
      (pad2chars t.minute ++ ([] : List Char)) =
      some (t.minute, []) := by
    apply read2or1_pad2 _ _ _ _ (by omega)
    exact decide_eq_true hmi
  have e5' : read2or1 (fun v => v ≤ 59) (fun v => v ≤ 9)
      (pad2chars t.minute) = some (t.minute, []) := by
    rw [← List.append_nil (pad2chars t.minute)] at e5 ⊢
    exact e5
  unfold strptimeDMYHM
  simp only [e1, e2, e3, e4, e5', readLit_cons]
  rw [if_pos ⟨hy1, hd1, hd2⟩]

/-- C8 (counterexample to the unrestricted round-trip): year 5 is a valid
`datetime` year, but `strftime` `%Y` prints it unpadded as `01.01.5 00:00`
and `strptime`'s `%Y` requires exactly four digits, so
`parse(format(t))` is `None`, not `t`. -/
theorem roundtrip_year_counterexample :
    ValidDT ⟨5, 1, 1, 0, 0, 0⟩ ∧
    format_date ⟨5, 1, 1, 0, 0, 0⟩ = "01.01.5 00:00" ∧
    parse_date (format_date ⟨5, 1, 1, 0, 0, 0⟩) = none := by
  refine ⟨by decide, by decide, by decide⟩

/-- C8 (amended: restricted to years with four digits): `format_date` is a
left inverse of `parse_date` on every valid minute-precision timestamp
whose year is at least 1000 — there `%Y` prints exactly the four digits
that `strptime`'s `%Y` requires; below 1000 CPython prints the year
unpadded and the round-trip fails. -/
theorem parse_format_roundtrip (t : DateTime) (h : ValidDT t)
    (hY : 1000 ≤ t.year) (hs : t.second = 0) :
    parse_date (format_date t) = some t := by
  have htl : (format_date t).toList = formatChars t := rfl
  obtain ⟨l1, h1⟩ := formatChars_head t
  have hne : pyStrip (format_date t).toList ≠ [] := by
    rw [htl, pyStrip_formatChars, h1]
    simp
  unfold parse_date
  rw [if_neg hne, htl, pyStrip_formatChars, strptime_formatChars t h hY]
  cases t
  simp only at hs
  rw [hs]

/-- Witness for C8 at the spec's example timestamp 25.12.2025 14:56. -/
theorem parse_format_roundtrip_witness :
    parse_date (format_date ⟨2025, 12, 25, 14, 56, 0⟩) =
      some ⟨2025, 12, 25, 14, 56, 0⟩ :=
  parse_format_roundtrip ⟨2025, 12, 25, 14, 56, 0⟩ (by decide) (by decide) rfl
